import Mathlib

/-!
Verification development for a small record-service backend (`src/server.py`):
three record kinds (status checks, investor requests, partnership inquiries),
each with a create endpoint (validate, synthesize id and UTC timestamp, insert
one document) and a list endpoint (read up to 1000 documents, rehydrate the
ISO-8601 timestamp string into a structured value).

The embedding is shallow: Python dicts become association lists of string keys
to a JSON-like `Value` type, the Mongo database becomes a record of three
document lists, the nondeterministic generators (`uuid.uuid4`, `datetime.now`)
become explicit parameters of the handlers, and raised exceptions become
`Except` errors.
-/

namespace Backend

/-! ### Structured date-times and ISO-8601 serialization

Model of Python `datetime` restricted to the UTC-aware values produced by
`datetime.now(timezone.utc)`. `isoformat` renders
`YYYY-MM-DDTHH:MM:SS[.ffffff]+00:00` (the fractional part is omitted exactly
when `microsecond = 0`, as in CPython); `fromisoformat` parses that shape back.
-/

structure PyDateTime where
  year : Nat
  month : Nat
  day : Nat
  hour : Nat
  minute : Nat
  second : Nat
  microsecond : Nat
deriving DecidableEq, Repr

/-- Character for a single decimal digit (digits 0-9). -/
def digitChar (n : Nat) : Char :=
  match n with
  | 0 => '0' | 1 => '1' | 2 => '2' | 3 => '3' | 4 => '4'
  | 5 => '5' | 6 => '6' | 7 => '7' | 8 => '8' | _ => '9'

/-- Numeric value of a decimal digit character. -/
def digitVal (c : Char) : Nat := c.toNat - 48

/-- Zero-padded fixed-width decimal rendering, most significant digit first. -/
def padNat : Nat → Nat → List Char
  | 0, _ => []
  | w + 1, n => padNat w (n / 10) ++ [digitChar (n % 10)]

/-- Read a decimal numeral from a digit list. -/
def readNat (cs : List Char) : Nat :=
  cs.foldl (fun a c => a * 10 + digitVal c) 0

/-- Character-level rendering of `datetime.isoformat()` for a UTC-aware value. -/
def isoformatChars (t : PyDateTime) : List Char :=
  padNat 4 t.year ++ ['-'] ++ padNat 2 t.month ++ ['-'] ++ padNat 2 t.day
    ++ ['T'] ++ padNat 2 t.hour ++ [':'] ++ padNat 2 t.minute ++ [':']
    ++ padNat 2 t.second
    ++ (if t.microsecond = 0 then [] else ['.'] ++ padNat 6 t.microsecond)
    ++ ['+', '0', '0', ':', '0', '0']

/-- Model of `datetime.isoformat()`. -/
def isoformat (t : PyDateTime) : String := String.mk (isoformatChars t)

/-- Consume one expected character, failing otherwise. -/
def expectChar (c : Char) : List Char → Option (List Char)
  | [] => Option.none
  | x :: rest => if x = c then some rest else Option.none

/-- Character-level model of `datetime.fromisoformat` on the shapes this
program ever stores: the fixed-width date and time fields, an optional
six-digit fraction, and an optional `+00:00` offset. -/
def fromisoChars (cs : List Char) : Option PyDateTime := do
  let y := readNat (cs.take 4)
  let cs ← expectChar '-' (cs.drop 4)
  let mo := readNat (cs.take 2)
  let cs ← expectChar '-' (cs.drop 2)
  let d := readNat (cs.take 2)
  let cs ← expectChar 'T' (cs.drop 2)
  let h := readNat (cs.take 2)
  let cs ← expectChar ':' (cs.drop 2)
  let mi := readNat (cs.take 2)
  let cs ← expectChar ':' (cs.drop 2)
  let s := readNat (cs.take 2)
  let cs := cs.drop 2
  let (usec, cs) :=
    match expectChar '.' cs with
    | some rest => (readNat (rest.take 6), rest.drop 6)
    | Option.none => (0, cs)
  if cs = [] || cs = ['+', '0', '0', ':', '0', '0'] then
    some ⟨y, mo, d, h, mi, s, usec⟩
  else Option.none

/-- Model of `datetime.fromisoformat`. -/
def fromisoformat (s : String) : Option PyDateTime := fromisoChars s.toList

example : isoformat ⟨2024, 1, 2, 3, 4, 5, 0⟩ = "2024-01-02T03:04:05+00:00" := by decide

example : fromisoformat "2024-01-02T03:04:05+00:00" = some ⟨2024, 1, 2, 3, 4, 5, 0⟩ := by decide

example : fromisoformat "2024-12-31T23:59:59.123456+00:00" =
    some ⟨2024, 12, 31, 23, 59, 59, 123456⟩ := by decide

example : fromisoformat (isoformat ⟨2026, 10, 12, 7, 30, 59, 999999⟩) =
    some ⟨2026, 10, 12, 7, 30, 59, 999999⟩ := by decide

/-! ### Documents and payloads

A JSON-ish value type and association-list documents model Python dicts.
Request bodies arrive as documents; stored Mongo documents are documents. -/

inductive Value where
  | str : String → Value
  | dt : PyDateTime → Value
  | bool : Bool → Value
  | int : Int → Value
  | null : Value
deriving DecidableEq, Repr

/-- A document: an insertion-ordered map from string keys to values. -/
abbrev Doc := List (String × Value)

/-- First-match association lookup, `d[k]` / `d.get(k)`. -/
def lookupKey (d : Doc) (k : String) : Option Value :=
  match d with
  | [] => Option.none
  | (k0, v0) :: rest => if k0 = k then some v0 else lookupKey rest k

/-- Dict assignment `d[k] = v`: replace the first binding of `k`, or append the
binding when `k` is absent. -/
def setKey (d : Doc) (k : String) (v : Value) : Doc :=
  match d with
  | [] => [(k, v)]
  | (k0, v0) :: rest => if k0 = k then (k, v) :: rest else (k0, v0) :: setKey rest k v

/-- Mongo projection `{"_id": 0}`: drop the internal row identifier. -/
def projNoId (d : Doc) : Doc := d.filter (fun kv => kv.1 != "_id")

/-- Split a list at the first occurrence of `c`, keeping neither side empty of
information: returns the parts before and after `c`, or nothing when `c` is
absent. -/
def splitFirst (c : Char) : List Char → Option (List Char × List Char)
  | [] => Option.none
  | x :: xs =>
    if x = c then some ([], xs)
    else
      match splitFirst c xs with
      | some (a, b) => some (x :: a, b)
      | Option.none => Option.none

/-- Email grammar enforced by `EmailStr` (modelled from the spec's description
of the external validator: a nonempty local part, one `@`, and a nonempty
domain containing at least one dot). -/
def validEmail (s : String) : Bool :=
  match splitFirst '@' s.toList with
  | some (lp, dom) =>
    !lp.isEmpty && !dom.isEmpty && !(dom.contains '@') && dom.contains '.'
  | Option.none => false

example : validEmail "a@b.com" = true := by decide
example : validEmail "not-an-email" = false := by decide
example : validEmail "a@b" = false := by decide
example : validEmail "@b.com" = false := by decide
example : validEmail "a@b@c.com" = false := by decide

/-! ### Pydantic models (`server.py` lines 30-72) -/

structure StatusCheck where
  id : String
  client_name : String
  timestamp : PyDateTime
deriving DecidableEq, Repr

structure StatusCheckCreate where
  client_name : String
deriving DecidableEq, Repr

structure InvestorRequestCreate where
  full_name : String
  email : String
  company : String
  title : String
  phone : Option String
  message : Option String
deriving DecidableEq, Repr

structure InvestorRequest where
  id : String
  full_name : String
  email : String
  company : String
  title : String
  phone : Option String
  message : Option String
  created_at : PyDateTime
deriving DecidableEq, Repr

structure PartnershipInquiryCreate where
  email : String
deriving DecidableEq, Repr

structure PartnershipInquiry where
  id : String
  email : String
  subject : String
  forward_to : String
  created_at : PyDateTime
deriving DecidableEq, Repr

/-- Optional-string field as dumped by pydantic (`None` becomes JSON null). -/
def optStrValue : Option String → Value
  | some s => Value.str s
  | Option.none => Value.null

/-- Dump of `StatusCheck.model_dump()`, fields in declaration order. -/
def StatusCheck.model_dump (r : StatusCheck) : Doc :=
  [("id", Value.str r.id), ("client_name", Value.str r.client_name),
   ("timestamp", Value.dt r.timestamp)]

/-- Dump of `InvestorRequest.model_dump()`, fields in declaration order. -/
def InvestorRequest.model_dump (r : InvestorRequest) : Doc :=
  [("id", Value.str r.id), ("full_name", Value.str r.full_name),
   ("email", Value.str r.email), ("company", Value.str r.company),
   ("title", Value.str r.title), ("phone", optStrValue r.phone),
   ("message", optStrValue r.message), ("created_at", Value.dt r.created_at)]

/-- Dump of `PartnershipInquiry.model_dump()`, fields in declaration order. -/
def PartnershipInquiry.model_dump (r : PartnershipInquiry) : Doc :=
  [("id", Value.str r.id), ("email", Value.str r.email),
   ("subject", Value.str r.subject), ("forward_to", Value.str r.forward_to),
   ("created_at", Value.dt r.created_at)]

/-! ### Request-body validation

FastAPI parses the JSON body into the `...Create` pydantic model. A required
`str` field must be present and a string (pydantic v2 does not coerce other
primitives to `str`); an `Optional[str]` field may be absent or null; an
`EmailStr` field must additionally pass the email grammar; fields outside the
schema are ignored (pydantic default `extra="ignore"`). Failures model
`ValidationError`, surfaced as a 422 client error. -/

def getStr (p : Doc) (k : String) : Except String String :=
  match lookupKey p k with
  | some (Value.str s) => Except.ok s
  | some _ => Except.error (k ++ ": input should be a valid string")
  | Option.none => Except.error (k ++ ": field required")

def getOptStr (p : Doc) (k : String) : Except String (Option String) :=
  match lookupKey p k with
  | some (Value.str s) => Except.ok (some s)
  | some Value.null => Except.ok Option.none
  | some _ => Except.error (k ++ ": input should be a valid string")
  | Option.none => Except.ok Option.none

def getEmail (p : Doc) (k : String) : Except String String :=
  match lookupKey p k with
  | some (Value.str s) =>
    if validEmail s then Except.ok s
    else Except.error (k ++ ": value is not a valid email address")
  | some _ => Except.error (k ++ ": input should be a valid string")
  | Option.none => Except.error (k ++ ": field required")

def parseStatusCheckCreate (p : Doc) : Except String StatusCheckCreate := do
  let c ← getStr p "client_name"
  Except.ok ⟨c⟩

def parseInvestorRequestCreate (p : Doc) : Except String InvestorRequestCreate := do
  let fn ← getStr p "full_name"
  let em ← getEmail p "email"
  let co ← getStr p "company"
  let ti ← getStr p "title"
  let ph ← getOptStr p "phone"
  let ms ← getOptStr p "message"
  Except.ok ⟨fn, em, co, ti, ph, ms⟩

def parsePartnershipInquiryCreate (p : Doc) : Except String PartnershipInquiryCreate := do
  let em ← getEmail p "email"
  Except.ok ⟨em⟩

/-! ### The backing store

The Mongo database, one collection per record kind; `insert_one` appends. -/

structure DB where
  status_checks : List Doc
  investor_requests : List Doc
  partnership_inquiries : List Doc
deriving DecidableEq, Repr

def emptyDB : DB := ⟨[], [], []⟩

/-! ### Create handlers (`server.py` lines 79-88, 101-110, 123-132)

The pydantic default factories `str(uuid.uuid4())` and
`datetime.now(timezone.utc)` are nondeterministic environment reads; they are
passed in as the explicit parameters `freshId` and `now`. Each handler builds
the full record from the validated input, dumps it, overwrites the timestamp
field with its `isoformat()` string, inserts that document, and returns the
record. -/

def create_status_check (input : StatusCheckCreate) (freshId : String)
    (now : PyDateTime) (db : DB) : StatusCheck × DB :=
  let status_obj : StatusCheck := ⟨freshId, input.client_name, now⟩
  let doc := setKey status_obj.model_dump "timestamp"
    (Value.str (isoformat status_obj.timestamp))
  (status_obj, { db with status_checks := db.status_checks ++ [doc] })

def create_investor_request (input : InvestorRequestCreate) (freshId : String)
    (now : PyDateTime) (db : DB) : InvestorRequest × DB :=
  let investor_obj : InvestorRequest :=
    ⟨freshId, input.full_name, input.email, input.company, input.title,
     input.phone, input.message, now⟩
  let doc := setKey investor_obj.model_dump "created_at"
    (Value.str (isoformat investor_obj.created_at))
  (investor_obj, { db with investor_requests := db.investor_requests ++ [doc] })

def create_partnership_inquiry (input : PartnershipInquiryCreate) (freshId : String)
    (now : PyDateTime) (db : DB) : PartnershipInquiry × DB :=
  let inquiry_obj : PartnershipInquiry :=
    ⟨freshId, input.email, "Inquiry: Partnerships",
     "office@oneaviationresources.in", now⟩
  let doc := setKey inquiry_obj.model_dump "created_at"
    (Value.str (isoformat inquiry_obj.created_at))
  (inquiry_obj, { db with partnership_inquiries := db.partnership_inquiries ++ [doc] })

/-! ### Full submit operations: body validation then create

A `ValidationError` is raised by FastAPI before the handler body runs, so on
validation failure the database is untouched. -/

def submit_status_check (payload : Doc) (freshId : String) (now : PyDateTime)
    (db : DB) : Except String StatusCheck × DB :=
  match parseStatusCheckCreate payload with
  | Except.error e => (Except.error e, db)
  | Except.ok input =>
    let r := create_status_check input freshId now db
    (Except.ok r.1, r.2)

def submit_investor_request (payload : Doc) (freshId : String) (now : PyDateTime)
    (db : DB) : Except String InvestorRequest × DB :=
  match parseInvestorRequestCreate payload with
  | Except.error e => (Except.error e, db)
  | Except.ok input =>
    let r := create_investor_request input freshId now db
    (Except.ok r.1, r.2)

def submit_partnership_inquiry (payload : Doc) (freshId : String) (now : PyDateTime)
    (db : DB) : Except String PartnershipInquiry × DB :=
  match parsePartnershipInquiryCreate payload with
  | Except.error e => (Except.error e, db)
  | Except.ok input =>
    let r := create_partnership_inquiry input freshId now db
    (Except.ok r.1, r.2)

/-! ### List handlers (`server.py` lines 90-98, 112-120) -/

/-- Effectful traversal of the documents returned by `find`: the Python `for`
loop rehydrates each timestamp in turn and the first raised exception aborts
the request. -/
def mapExcept (f : Doc → Except String Doc) : List Doc → Except String (List Doc)
  | [] => Except.ok []
  | x :: xs =>
    match f x with
    | Except.error e => Except.error e
    | Except.ok y =>
      match mapExcept f xs with
      | Except.error e => Except.error e
      | Except.ok ys => Except.ok (y :: ys)

/-- Body of the `get_status_checks` loop: `check['timestamp']` is indexed
unconditionally (a missing key raises `KeyError`), and a string value is
parsed with `fromisoformat` (an unparsable string raises `ValueError`). -/
def convertTimestampStrict (check : Doc) : Except String Doc :=
  match lookupKey check "timestamp" with
  | Option.none => Except.error "KeyError: timestamp"
  | some v =>
    match v with
    | Value.str s =>
      match fromisoformat s with
      | some t => Except.ok (setKey check "timestamp" (Value.dt t))
      | Option.none => Except.error "ValueError: invalid isoformat string"
    | _ => Except.ok check

/-- Body of the `get_investor_requests` loop: `req.get('created_at')` is a
guarded lookup, so a document lacking the key is passed through unchanged. -/
def convertCreatedAtLenient (req : Doc) : Except String Doc :=
  match lookupKey req "created_at" with
  | some (Value.str s) =>
    match fromisoformat s with
    | some t => Except.ok (setKey req "created_at" (Value.dt t))
    | Option.none => Except.error "ValueError: invalid isoformat string"
  | _ => Except.ok req

def get_status_checks (db : DB) : Except String (List Doc) :=
  mapExcept convertTimestampStrict ((db.status_checks.map projNoId).take 1000)

def get_investor_requests (db : DB) : Except String (List Doc) :=
  mapExcept convertCreatedAtLenient ((db.investor_requests.map projNoId).take 1000)

/-- The root endpoint returns a fixed welcome payload and reads no state. -/
def root : Doc := [("message", Value.str "ONE Aviation Resources API")]

/-! ### Reachable database states

States reachable from an empty store through the three submit operations; the
only writes the service performs. -/

inductive Reachable : DB → Prop where
  | init : Reachable emptyDB
  | step_status : ∀ {db} (payload : Doc) (freshId : String) (now : PyDateTime),
      Reachable db → Reachable (submit_status_check payload freshId now db).2
  | step_investor : ∀ {db} (payload : Doc) (freshId : String) (now : PyDateTime),
      Reachable db → Reachable (submit_investor_request payload freshId now db).2
  | step_partnership : ∀ {db} (payload : Doc) (freshId : String) (now : PyDateTime),
      Reachable db → Reachable (submit_partnership_inquiry payload freshId now db).2

/-! ### Serialization round trip -/

theorem padNat_length (w n : Nat) : (padNat w n).length = w := by
  induction w generalizing n with
  | zero => rfl
  | succ w ih => simp [padNat, ih]

theorem digitVal_digitChar : ∀ m, m < 10 → digitVal (digitChar m) = m := by decide

theorem readNat_append_digit (l : List Char) (c : Char) :
    readNat (l ++ [c]) = readNat l * 10 + digitVal c := by
  simp [readNat, List.foldl_append]

theorem readNat_padNat (w n : Nat) : readNat (padNat w n) = n % 10 ^ w := by
  induction w generalizing n with
  | zero => simp [padNat, readNat, Nat.mod_one]
  | succ w ih =>
    rw [padNat, readNat_append_digit, ih,
        digitVal_digitChar _ (Nat.mod_lt _ (by decide)),
        pow_succ, mul_comm (10 ^ w) 10, Nat.mod_mul]
    ring

/-- Parsing a formatted date-time always succeeds, recovering each field
modulo its rendered width. -/
theorem fromisoChars_isoformatChars (t : PyDateTime) :
    fromisoChars (isoformatChars t) =
      some ⟨t.year % 10 ^ 4, t.month % 10 ^ 2, t.day % 10 ^ 2, t.hour % 10 ^ 2,
            t.minute % 10 ^ 2, t.second % 10 ^ 2,
            if t.microsecond = 0 then 0 else t.microsecond % 10 ^ 6⟩ := by
  by_cases hu : t.microsecond = 0 <;>
    simp [isoformatChars, fromisoChars, expectChar, hu, List.take_left',
          List.drop_left', padNat_length, readNat_padNat]

/-- Round trip for in-range date-times: `fromisoformat` inverts `isoformat`. -/
theorem fromisoformat_isoformat (t : PyDateTime)
    (hy : t.year < 10 ^ 4) (hmo : t.month < 10 ^ 2) (hd : t.day < 10 ^ 2)
    (hh : t.hour < 10 ^ 2) (hmi : t.minute < 10 ^ 2) (hs : t.second < 10 ^ 2)
    (hus : t.microsecond < 10 ^ 6) :
    fromisoformat (isoformat t) = some t := by
  have hts : (isoformat t).toList = isoformatChars t := rfl
  rw [fromisoformat, hts, fromisoChars_isoformatChars]
  cases t with
  | mk y mo d h mi s us =>
    simp only at hy hmo hd hh hmi hs hus
    norm_num at hy hmo hd hh hmi hs hus
    by_cases hu : us = 0 <;>
      simp [hu, Nat.mod_eq_of_lt, hy, hmo, hd, hh, hmi, hs, hus]

/-- Parsing a formatted date-time never fails, whatever the field values. -/
theorem fromisoformat_isoformat_ok (t : PyDateTime) :
    ∃ u, fromisoformat (isoformat t) = some u := by
  have hts : (isoformat t).toList = isoformatChars t := rfl
  exact ⟨_, by rw [fromisoformat, hts, fromisoChars_isoformatChars]⟩

/-! ### Document lemmas -/

theorem lookupKey_setKey_same (d : Doc) (k : String) (v : Value) :
    lookupKey (setKey d k v) k = some v := by
  induction d with
  | nil => simp [setKey, lookupKey]
  | cons kv rest ih =>
    obtain ⟨k0, v0⟩ := kv
    by_cases h : k0 = k <;> simp [setKey, lookupKey, h, ih]

theorem lookupKey_setKey_other (d : Doc) (k k2 : String) (v : Value) (h : k2 ≠ k) :
    lookupKey (setKey d k v) k2 = lookupKey d k2 := by
  induction d with
  | nil => simp [setKey, lookupKey, Ne.symm h]
  | cons kv rest ih =>
    obtain ⟨k0, v0⟩ := kv
    by_cases h0 : k0 = k
    · subst h0
      simp [setKey, lookupKey, Ne.symm h]
    · by_cases h2 : k0 = k2 <;> simp [setKey, lookupKey, h0, h2, h, ih]

theorem lookupKey_append_of_ne (d : Doc) (k k2 : String) (v : Value) (h : k2 ≠ k) :
    lookupKey (d ++ [(k, v)]) k2 = lookupKey d k2 := by
  induction d with
  | nil => simp [lookupKey, Ne.symm h]
  | cons kv rest ih =>
    obtain ⟨k0, v0⟩ := kv
    by_cases h0 : k0 = k2 <;> simp [lookupKey, h0, ih]

theorem lookupKey_projNoId (d : Doc) (k : String) (h : k ≠ "_id") :
    lookupKey (projNoId d) k = lookupKey d k := by
  induction d with
  | nil => rfl
  | cons kv rest ih =>
    obtain ⟨k0, v0⟩ := kv
    by_cases h0 : k0 = "_id"
    · subst h0
      rw [show lookupKey (("_id", v0) :: rest) k = lookupKey rest k by
            simp [lookupKey, Ne.symm h], ← ih]
      simp [projNoId, List.filter_cons]
    · by_cases h2 : k0 = k
      · subst h2
        simp [projNoId, List.filter_cons, lookupKey, h0]
      · rw [show lookupKey ((k0, v0) :: rest) k = lookupKey rest k by
              simp [lookupKey, h2], ← ih]
        simp [projNoId, List.filter_cons, h0, lookupKey, h2]

/-! ### Traversal lemmas for the list handlers -/

theorem mapExcept_length (f : Doc → Except String Doc) (xs ys : List Doc)
    (h : mapExcept f xs = Except.ok ys) : ys.length = xs.length := by
  induction xs generalizing ys with
  | nil =>
    simp [mapExcept] at h
    simp [h.symm]
  | cons x xs ih =>
    rw [mapExcept] at h
    cases hfx : f x with
    | error e => rw [hfx] at h; exact absurd h (by simp)
    | ok y =>
      rw [hfx] at h
      cases hm : mapExcept f xs with
      | error e => rw [hm] at h; exact absurd h (by simp)
      | ok ys0 =>
        rw [hm] at h
        cases h
        simp [ih ys0 hm]

theorem mapExcept_get (f : Doc → Except String Doc) (xs ys : List Doc)
    (h : mapExcept f xs = Except.ok ys) (i : Nat) (h1 : i < xs.length)
    (h2 : i < ys.length) : f (xs.get ⟨i, h1⟩) = Except.ok (ys.get ⟨i, h2⟩) := by
  induction xs generalizing ys i with
  | nil => exact absurd h1 (by simp)
  | cons x xs ih =>
    rw [mapExcept] at h
    cases hfx : f x with
    | error e => rw [hfx] at h; exact absurd h (by simp)
    | ok y =>
      rw [hfx] at h
      cases hm : mapExcept f xs with
      | error e => rw [hm] at h; exact absurd h (by simp)
      | ok ys0 =>
        rw [hm] at h
        cases h
        cases i with
        | zero => exact hfx
        | succ j => exact ih ys0 hm j (Nat.lt_of_succ_lt_succ h1) (Nat.lt_of_succ_lt_succ h2)

theorem mapExcept_ok_of_all (f : Doc → Except String Doc) (xs : List Doc)
    (h : ∀ x ∈ xs, ∃ y, f x = Except.ok y) : ∃ ys, mapExcept f xs = Except.ok ys := by
  induction xs with
  | nil => exact ⟨[], rfl⟩
  | cons x xs ih =>
    obtain ⟨y, hy⟩ := h x (List.mem_cons_self x xs)
    obtain ⟨ys, hys⟩ := ih (fun z hz => h z (List.mem_cons_of_mem x hz))
    exact ⟨y :: ys, by rw [mapExcept, hy, hys]⟩

theorem mapExcept_error_of_mem (f : Doc → Except String Doc) (xs : List Doc)
    (x : Doc) (hx : x ∈ xs) (e : String) (he : f x = Except.error e) :
    ∃ e2, mapExcept f xs = Except.error e2 := by
  induction xs with
  | nil => exact absurd hx (by simp)
  | cons z xs ih =>
    rcases List.mem_cons.mp hx with hz | hz
    · subst hz
      exact ⟨e, by rw [mapExcept, he]⟩
    · cases hfz : f z with
      | error e0 => exact ⟨e0, by rw [mapExcept, hfz]⟩
      | ok y =>
        obtain ⟨e2, he2⟩ := ih hz
        exact ⟨e2, by rw [mapExcept, hfz, he2]⟩

/-! ### Shapes of the create handlers, as rewrite rules -/

theorem create_status_check_eq (input : StatusCheckCreate) (freshId : String)
    (now : PyDateTime) (db : DB) :
    create_status_check input freshId now db =
      (⟨freshId, input.client_name, now⟩,
       { db with status_checks := db.status_checks ++
          [setKey (StatusCheck.model_dump ⟨freshId, input.client_name, now⟩)
            "timestamp" (Value.str (isoformat now))] }) := rfl

theorem create_investor_request_eq (input : InvestorRequestCreate) (freshId : String)
    (now : PyDateTime) (db : DB) :
    create_investor_request input freshId now db =
      (⟨freshId, input.full_name, input.email, input.company, input.title,
        input.phone, input.message, now⟩,
       { db with investor_requests := db.investor_requests ++
          [setKey (InvestorRequest.model_dump
              ⟨freshId, input.full_name, input.email, input.company, input.title,
               input.phone, input.message, now⟩)
            "created_at" (Value.str (isoformat now))] }) := rfl

theorem create_partnership_inquiry_eq (input : PartnershipInquiryCreate) (freshId : String)
    (now : PyDateTime) (db : DB) :
    create_partnership_inquiry input freshId now db =
      (⟨freshId, input.email, "Inquiry: Partnerships",
        "office@oneaviationresources.in", now⟩,
       { db with partnership_inquiries := db.partnership_inquiries ++
          [setKey (PartnershipInquiry.model_dump
              ⟨freshId, input.email, "Inquiry: Partnerships",
               "office@oneaviationresources.in", now⟩)
            "created_at" (Value.str (isoformat now))] }) := rfl

/-! ### Reachability invariant: every stored document carries its timestamp
key, bound to the ISO-8601 rendering of some structured date-time. -/

def docTimestampOk (key : String) (d : Doc) : Prop :=
  ∃ t, lookupKey d key = some (Value.str (isoformat t))

def GoodDB (db : DB) : Prop :=
  (∀ d ∈ db.status_checks, docTimestampOk "timestamp" d) ∧
  (∀ d ∈ db.investor_requests, docTimestampOk "created_at" d) ∧
  (∀ d ∈ db.partnership_inquiries, docTimestampOk "created_at" d)

theorem good_append (ds : List Doc) (key : String) (nd : Doc)
    (h : ∀ d ∈ ds, docTimestampOk key d) (hn : docTimestampOk key nd) :
    ∀ d ∈ ds ++ [nd], docTimestampOk key d := by
  intro d hd
  rcases List.mem_append.mp hd with h0 | h0
  · exact h d h0
  · rw [List.mem_singleton.mp h0]
    exact hn

theorem reachable_good (db : DB) (h : Reachable db) : GoodDB db := by
  induction h with
  | init => exact ⟨by simp [emptyDB], by simp [emptyDB], by simp [emptyDB]⟩
  | step_status payload freshId now _ ih =>
    obtain ⟨h1, h2, h3⟩ := ih
    cases hp : parseStatusCheckCreate payload with
    | error e => simpa [submit_status_check, hp] using ⟨h1, h2, h3⟩
    | ok input =>
      simp only [submit_status_check, hp, create_status_check_eq]
      exact ⟨good_append _ _ _ h1 ⟨now, lookupKey_setKey_same _ _ _⟩, h2, h3⟩
  | step_investor payload freshId now _ ih =>
    obtain ⟨h1, h2, h3⟩ := ih
    cases hp : parseInvestorRequestCreate payload with
    | error e => simpa [submit_investor_request, hp] using ⟨h1, h2, h3⟩
    | ok input =>
      simp only [submit_investor_request, hp, create_investor_request_eq]
      exact ⟨h1, good_append _ _ _ h2 ⟨now, lookupKey_setKey_same _ _ _⟩, h3⟩
  | step_partnership payload freshId now _ ih =>
    obtain ⟨h1, h2, h3⟩ := ih
    cases hp : parsePartnershipInquiryCreate payload with
    | error e => simpa [submit_partnership_inquiry, hp] using ⟨h1, h2, h3⟩
    | ok input =>
      simp only [submit_partnership_inquiry, hp, create_partnership_inquiry_eq]
      exact ⟨h1, h2, good_append _ _ _ h3 ⟨now, lookupKey_setKey_same _ _ _⟩⟩

/-! ### List handlers succeed on well-formed collections -/

theorem convertTimestampStrict_ok (d : Doc) (h : docTimestampOk "timestamp" d) :
    ∃ y, convertTimestampStrict d = Except.ok y := by
  obtain ⟨t, ht⟩ := h
  obtain ⟨u, hu⟩ := fromisoformat_isoformat_ok t
  exact ⟨setKey d "timestamp" (Value.dt u), by simp [convertTimestampStrict, ht, hu]⟩

theorem convertCreatedAtLenient_ok (d : Doc) (h : docTimestampOk "created_at" d) :
    ∃ y, convertCreatedAtLenient d = Except.ok y := by
  obtain ⟨t, ht⟩ := h
  obtain ⟨u, hu⟩ := fromisoformat_isoformat_ok t
  exact ⟨setKey d "created_at" (Value.dt u), by simp [convertCreatedAtLenient, ht, hu]⟩

theorem get_status_checks_ok_of_good (db : DB)
    (h : ∀ d ∈ db.status_checks, docTimestampOk "timestamp" d) :
    ∃ l, get_status_checks db = Except.ok l := by
  apply mapExcept_ok_of_all
  intro x hx
  obtain ⟨d, hd, rfl⟩ := List.mem_map.mp (List.mem_of_mem_take hx)
  apply convertTimestampStrict_ok
  obtain ⟨t, ht⟩ := h d hd
  exact ⟨t, by rw [lookupKey_projNoId d _ (by decide), ht]⟩

theorem get_investor_requests_ok_of_good (db : DB)
    (h : ∀ d ∈ db.investor_requests, docTimestampOk "created_at" d) :
    ∃ l, get_investor_requests db = Except.ok l := by
  apply mapExcept_ok_of_all
  intro x hx
  obtain ⟨d, hd, rfl⟩ := List.mem_map.mp (List.mem_of_mem_take hx)
  apply convertCreatedAtLenient_ok
  obtain ⟨t, ht⟩ := h d hd
  exact ⟨t, by rw [lookupKey_projNoId d _ (by decide), ht]⟩

/-! ### Characterizations of the body parsers -/

/-- Lookup that also requires the value to be a string. -/
def lookupStr (p : Doc) (k : String) : Option String :=
  match lookupKey p k with
  | some (Value.str s) => some s
  | _ => Option.none

theorem getStr_ok (p : Doc) (k s : String) (h : getStr p k = Except.ok s) :
    lookupStr p k = some s := by
  unfold getStr at h
  cases hl : lookupKey p k with
  | none => rw [hl] at h; exact absurd h (by simp)
  | some v =>
    rw [hl] at h
    cases v <;> simp at h
    simp [lookupStr, hl, h]

theorem getEmail_ok (p : Doc) (k s : String) (h : getEmail p k = Except.ok s) :
    lookupStr p k = some s ∧ validEmail s = true := by
  unfold getEmail at h
  cases hl : lookupKey p k with
  | none => rw [hl] at h; exact absurd h (by simp)
  | some v =>
    rw [hl] at h
    cases v with
    | str s0 =>
      dsimp only at h
      by_cases hv : validEmail s0 = true
      · rw [if_pos hv] at h
        simp at h
        subst h
        exact ⟨by simp [lookupStr, hl], hv⟩
      · rw [if_neg hv] at h
        exact absurd h (by simp)
    | dt t => exact absurd h (by simp)
    | bool b => exact absurd h (by simp)
    | int n => exact absurd h (by simp)
    | null => exact absurd h (by simp)

theorem parseStatusCheckCreate_ok (p : Doc) (c : StatusCheckCreate)
    (h : parseStatusCheckCreate p = Except.ok c) :
    lookupStr p "client_name" = some c.client_name := by
  unfold parseStatusCheckCreate at h
  cases hg : getStr p "client_name" with
  | error e => rw [hg] at h; exact absurd h (by simp [Bind.bind, Except.bind])
  | ok s =>
    rw [hg] at h
    simp [Bind.bind, Except.bind] at h
    rw [← h]
    exact getStr_ok p _ s hg

theorem parsePartnershipInquiryCreate_ok (p : Doc) (c : PartnershipInquiryCreate)
    (h : parsePartnershipInquiryCreate p = Except.ok c) :
    lookupStr p "email" = some c.email ∧ validEmail c.email = true := by
  unfold parsePartnershipInquiryCreate at h
  cases hg : getEmail p "email" with
  | error e => rw [hg] at h; exact absurd h (by simp [Bind.bind, Except.bind])
  | ok s =>
    rw [hg] at h
    simp [Bind.bind, Except.bind] at h
    rw [← h]
    exact getEmail_ok p _ s hg

theorem parseInvestorRequestCreate_ok (p : Doc) (c : InvestorRequestCreate)
    (h : parseInvestorRequestCreate p = Except.ok c) :
    lookupStr p "full_name" = some c.full_name ∧
    lookupStr p "email" = some c.email ∧ validEmail c.email = true ∧
    lookupStr p "company" = some c.company ∧
    lookupStr p "title" = some c.title := by
  unfold parseInvestorRequestCreate at h
  cases h1 : getStr p "full_name" with
  | error e => rw [h1] at h; exact absurd h (by simp [Bind.bind, Except.bind])
  | ok fn =>
  rw [h1] at h
  cases h2 : getEmail p "email" with
  | error e => rw [h2] at h; exact absurd h (by simp [Bind.bind, Except.bind])
  | ok em =>
  rw [h2] at h
  cases h3 : getStr p "company" with
  | error e => rw [h3] at h; exact absurd h (by simp [Bind.bind, Except.bind])
  | ok co =>
  rw [h3] at h
  cases h4 : getStr p "title" with
  | error e => rw [h4] at h; exact absurd h (by simp [Bind.bind, Except.bind])
  | ok ti =>
  rw [h4] at h
  cases h5 : getOptStr p "phone" with
  | error e => rw [h5] at h; exact absurd h (by simp [Bind.bind, Except.bind])
  | ok ph =>
  rw [h5] at h
  cases h6 : getOptStr p "message" with
  | error e => rw [h6] at h; exact absurd h (by simp [Bind.bind, Except.bind])
  | ok ms =>
  rw [h6] at h
  simp [Bind.bind, Except.bind] at h
  obtain ⟨hem, hvem⟩ := getEmail_ok p _ em h2
  rw [← h]
  exact ⟨getStr_ok p _ fn h1, hem, hvem, getStr_ok p _ co h3, getStr_ok p _ ti h4⟩

/-! ### Shapes of successful submissions -/

theorem submit_status_check_shape (payload : Doc) (freshId : String)
    (now : PyDateTime) (db : DB) (r : StatusCheck) (db2 : DB)
    (h : submit_status_check payload freshId now db = (Except.ok r, db2)) :
    parseStatusCheckCreate payload = Except.ok ⟨r.client_name⟩ ∧
    r = ⟨freshId, r.client_name, now⟩ ∧
    db2 = { db with status_checks := db.status_checks ++
      [setKey r.model_dump "timestamp" (Value.str (isoformat now))] } := by
  unfold submit_status_check at h
  cases hp : parseStatusCheckCreate payload with
  | error e => rw [hp] at h; exact absurd h (by simp)
  | ok input =>
    rw [hp] at h
    dsimp only at h
    rw [create_status_check_eq] at h
    have h1 := congrArg Prod.fst h
    have h2 := congrArg Prod.snd h
    simp at h1 h2
    rw [← h1, ← h2]
    exact ⟨rfl, rfl, rfl⟩

theorem submit_investor_request_shape (payload : Doc) (freshId : String)
    (now : PyDateTime) (db : DB) (r : InvestorRequest) (db2 : DB)
    (h : submit_investor_request payload freshId now db = (Except.ok r, db2)) :
    parseInvestorRequestCreate payload =
      Except.ok ⟨r.full_name, r.email, r.company, r.title, r.phone, r.message⟩ ∧
    r = ⟨freshId, r.full_name, r.email, r.company, r.title, r.phone, r.message, now⟩ ∧
    db2 = { db with investor_requests := db.investor_requests ++
      [setKey r.model_dump "created_at" (Value.str (isoformat now))] } := by
  unfold submit_investor_request at h
  cases hp : parseInvestorRequestCreate payload with
  | error e => rw [hp] at h; exact absurd h (by simp)
  | ok input =>
    rw [hp] at h
    dsimp only at h
    rw [create_investor_request_eq] at h
    have h1 := congrArg Prod.fst h
    have h2 := congrArg Prod.snd h
    simp at h1 h2
    rw [← h1, ← h2]
    exact ⟨rfl, rfl, rfl⟩

theorem submit_partnership_inquiry_shape (payload : Doc) (freshId : String)
    (now : PyDateTime) (db : DB) (r : PartnershipInquiry) (db2 : DB)
    (h : submit_partnership_inquiry payload freshId now db = (Except.ok r, db2)) :
    parsePartnershipInquiryCreate payload = Except.ok ⟨r.email⟩ ∧
    r = ⟨freshId, r.email, "Inquiry: Partnerships",
         "office@oneaviationresources.in", now⟩ ∧
    db2 = { db with partnership_inquiries := db.partnership_inquiries ++
      [setKey r.model_dump "created_at" (Value.str (isoformat now))] } := by
  unfold submit_partnership_inquiry at h
  cases hp : parsePartnershipInquiryCreate payload with
  | error e => rw [hp] at h; exact absurd h (by simp)
  | ok input =>
    rw [hp] at h
    dsimp only at h
    rw [create_partnership_inquiry_eq] at h
    have h1 := congrArg Prod.fst h
    have h2 := congrArg Prod.snd h
    simp at h1 h2
    rw [← h1, ← h2]
    exact ⟨rfl, rfl, rfl⟩

/-! ### The claims -/

/-- C1: every successful PartnershipInquiry submission, whatever else the
request body contains, returns a record whose `subject` is the constant
"Inquiry: Partnerships" and whose `forward_to` is the constant
"office@oneaviationresources.in", and stores a document carrying the same two
constants. -/
theorem claim_C1 (payload : Doc) (freshId : String) (now : PyDateTime) (db : DB)
    (r : PartnershipInquiry) (db2 : DB)
    (h : submit_partnership_inquiry payload freshId now db = (Except.ok r, db2)) :
    r.subject = "Inquiry: Partnerships" ∧
    r.forward_to = "office@oneaviationresources.in" ∧
    ∃ d, db2.partnership_inquiries = db.partnership_inquiries ++ [d] ∧
      lookupKey d "subject" = some (Value.str "Inquiry: Partnerships") ∧
      lookupKey d "forward_to" = some (Value.str "office@oneaviationresources.in") := by
  obtain ⟨hp, hr, hdb⟩ := submit_partnership_inquiry_shape payload freshId now db r db2 h
  refine ⟨by rw [hr], by rw [hr], _, by rw [hdb], ?_, ?_⟩
  · rw [lookupKey_setKey_other _ _ _ _ (by decide),
        show lookupKey r.model_dump "subject" = some (Value.str r.subject) from rfl, hr]
  · rw [lookupKey_setKey_other _ _ _ _ (by decide),
        show lookupKey r.model_dump "forward_to" = some (Value.str r.forward_to) from rfl,
        hr]

/-- Concrete date-time used by the witnesses. -/
def demoT : PyDateTime := ⟨2024, 1, 2, 3, 4, 5, 0⟩

/-- Concrete partnership-inquiry payload with an uninvited extra field. -/
def demoPartnershipPayload : Doc :=
  [("email", Value.str "a@b.com"), ("admin", Value.bool true)]

/-- Concrete partnership-inquiry record produced by the witness submission. -/
def demoPartnershipRecord : PartnershipInquiry :=
  ⟨"id-1", "a@b.com", "Inquiry: Partnerships", "office@oneaviationresources.in", demoT⟩

theorem claim_C1_witness :
    demoPartnershipRecord.subject = "Inquiry: Partnerships" ∧
    demoPartnershipRecord.forward_to = "office@oneaviationresources.in" ∧
    ∃ d, (submit_partnership_inquiry demoPartnershipPayload "id-1" demoT emptyDB).2.partnership_inquiries =
        emptyDB.partnership_inquiries ++ [d] ∧
      lookupKey d "subject" = some (Value.str "Inquiry: Partnerships") ∧
      lookupKey d "forward_to" = some (Value.str "office@oneaviationresources.in") :=
  claim_C1 demoPartnershipPayload "id-1" demoT emptyDB demoPartnershipRecord
    (submit_partnership_inquiry demoPartnershipPayload "id-1" demoT emptyDB).2 (by rfl)

/-- A required string field that is absent or bound to a non-string value. -/
def missingOrWrongStr (p : Doc) (k : String) : Prop := lookupStr p k = Option.none

/-- Invalid StatusCheck payload: `client_name` missing or of the wrong type. -/
def statusPayloadInvalid (p : Doc) : Prop := missingOrWrongStr p "client_name"

/-- Invalid InvestorRequest payload: a required field missing or of the wrong
type, or the email present but failing the email grammar. -/
def investorPayloadInvalid (p : Doc) : Prop :=
  missingOrWrongStr p "full_name" ∨ missingOrWrongStr p "email" ∨
  missingOrWrongStr p "company" ∨ missingOrWrongStr p "title" ∨
  (∃ s, lookupStr p "email" = some s ∧ validEmail s = false)

/-- Invalid PartnershipInquiry payload: email missing, of the wrong type, or
failing the email grammar. -/
def partnershipPayloadInvalid (p : Doc) : Prop :=
  missingOrWrongStr p "email" ∨
  (∃ s, lookupStr p "email" = some s ∧ validEmail s = false)

/-- C2: a submission whose payload misses a required field of its kind's
schema, binds one to the wrong primitive type, or carries a malformed email
fails with a ValidationError (a client error), and the database is left
exactly as it was: no partial write occurs, for any of the three kinds. -/
theorem claim_C2 :
    (∀ (p : Doc) (freshId : String) (now : PyDateTime) (db : DB),
      statusPayloadInvalid p →
        (∃ e, (submit_status_check p freshId now db).1 = Except.error e) ∧
        (submit_status_check p freshId now db).2 = db) ∧
    (∀ (p : Doc) (freshId : String) (now : PyDateTime) (db : DB),
      investorPayloadInvalid p →
        (∃ e, (submit_investor_request p freshId now db).1 = Except.error e) ∧
        (submit_investor_request p freshId now db).2 = db) ∧
    (∀ (p : Doc) (freshId : String) (now : PyDateTime) (db : DB),
      partnershipPayloadInvalid p →
        (∃ e, (submit_partnership_inquiry p freshId now db).1 = Except.error e) ∧
        (submit_partnership_inquiry p freshId now db).2 = db) := by
  refine ⟨?_, ?_, ?_⟩
  · intro p freshId now db hinv
    cases hp : parseStatusCheckCreate p with
    | error e => exact ⟨⟨e, by simp [submit_status_check, hp]⟩, by simp [submit_status_check, hp]⟩
    | ok c =>
      have hc := parseStatusCheckCreate_ok p c hp
      rw [statusPayloadInvalid, missingOrWrongStr, hc] at hinv
      exact absurd hinv (by simp)
  · intro p freshId now db hinv
    cases hp : parseInvestorRequestCreate p with
    | error e => exact ⟨⟨e, by simp [submit_investor_request, hp]⟩, by simp [submit_investor_request, hp]⟩
    | ok c =>
      obtain ⟨h1, h2, h3, h4, h5⟩ := parseInvestorRequestCreate_ok p c hp
      rcases hinv with hv | hv | hv | hv | ⟨s, hs, hvs⟩
      · rw [missingOrWrongStr, h1] at hv; exact absurd hv (by simp)
      · rw [missingOrWrongStr, h2] at hv; exact absurd hv (by simp)
      · rw [missingOrWrongStr, h4] at hv; exact absurd hv (by simp)
      · rw [missingOrWrongStr, h5] at hv; exact absurd hv (by simp)
      · rw [h2] at hs
        rw [Option.some.injEq] at hs
        rw [← hs] at hvs
        rw [h3] at hvs
        exact absurd hvs (by simp)
  · intro p freshId now db hinv
    cases hp : parsePartnershipInquiryCreate p with
    | error e => exact ⟨⟨e, by simp [submit_partnership_inquiry, hp]⟩, by simp [submit_partnership_inquiry, hp]⟩
    | ok c =>
      obtain ⟨h1, h2⟩ := parsePartnershipInquiryCreate_ok p c hp
      rcases hinv with hv | ⟨s, hs, hvs⟩
      · rw [missingOrWrongStr, h1] at hv; exact absurd hv (by simp)
      · rw [h1] at hs
        rw [Option.some.injEq] at hs
        rw [← hs] at hvs
        rw [h2] at hvs
        exact absurd hvs (by simp)

theorem claim_C2_witness :
    (statusPayloadInvalid [("admin", Value.bool true)] ∧
      (∃ e, (submit_status_check [("admin", Value.bool true)] "id-2" demoT emptyDB).1 =
        Except.error e) ∧
      (submit_status_check [("admin", Value.bool true)] "id-2" demoT emptyDB).2 = emptyDB) ∧
    (investorPayloadInvalid
        [("full_name", Value.str "A"), ("email", Value.str "not-an-email"),
         ("company", Value.str "B"), ("title", Value.str "C")] ∧
      (∃ e, (submit_investor_request
          [("full_name", Value.str "A"), ("email", Value.str "not-an-email"),
           ("company", Value.str "B"), ("title", Value.str "C")]
          "id-3" demoT emptyDB).1 = Except.error e) ∧
      (submit_investor_request
          [("full_name", Value.str "A"), ("email", Value.str "not-an-email"),
           ("company", Value.str "B"), ("title", Value.str "C")]
          "id-3" demoT emptyDB).2 = emptyDB) ∧
    (partnershipPayloadInvalid [] ∧
      (∃ e, (submit_partnership_inquiry [] "id-4" demoT emptyDB).1 = Except.error e) ∧
      (submit_partnership_inquiry [] "id-4" demoT emptyDB).2 = emptyDB) := by
  have hs : statusPayloadInvalid [("admin", Value.bool true)] := by
    rw [statusPayloadInvalid, missingOrWrongStr]; rfl
  have hi : investorPayloadInvalid
      [("full_name", Value.str "A"), ("email", Value.str "not-an-email"),
       ("company", Value.str "B"), ("title", Value.str "C")] := by
    refine Or.inr (Or.inr (Or.inr (Or.inr ⟨"not-an-email", by rfl, by decide⟩)))
  have hq : partnershipPayloadInvalid [] := by
    refine Or.inl ?_
    rw [missingOrWrongStr]; rfl
  exact ⟨⟨hs, claim_C2.1 _ "id-2" demoT emptyDB hs⟩,
         ⟨hi, claim_C2.2.1 _ "id-3" demoT emptyDB hi⟩,
         ⟨hq, claim_C2.2.2 _ "id-4" demoT emptyDB hq⟩⟩

/-! ### Unknown-field tolerance -/

theorem getStr_append (p : Doc) (k f : String) (v : Value) (h : f ≠ k) :
    getStr (p ++ [(k, v)]) f = getStr p f := by
  unfold getStr
  rw [lookupKey_append_of_ne p k f v h]

theorem getEmail_append (p : Doc) (k f : String) (v : Value) (h : f ≠ k) :
    getEmail (p ++ [(k, v)]) f = getEmail p f := by
  unfold getEmail
  rw [lookupKey_append_of_ne p k f v h]

theorem getOptStr_append (p : Doc) (k f : String) (v : Value) (h : f ≠ k) :
    getOptStr (p ++ [(k, v)]) f = getOptStr p f := by
  unfold getOptStr
  rw [lookupKey_append_of_ne p k f v h]

/-- C5: a payload field outside the kind's schema — an extra `admin` flag, a
caller-supplied `id` or timestamp — is silently dropped: the whole submission
behaves exactly as if the field were absent, and the stored document's keys
are exactly the schema plus server-assigned keys, so no unknown field reaches
the store or the returned record. -/
theorem claim_C5 :
    (∀ (p : Doc) (k : String) (v : Value) (freshId : String) (now : PyDateTime) (db : DB),
      ¬ k ∈ ["client_name"] →
        submit_status_check (p ++ [(k, v)]) freshId now db =
          submit_status_check p freshId now db) ∧
    (∀ (p : Doc) (k : String) (v : Value) (freshId : String) (now : PyDateTime) (db : DB),
      ¬ k ∈ ["full_name", "email", "company", "title", "phone", "message"] →
        submit_investor_request (p ++ [(k, v)]) freshId now db =
          submit_investor_request p freshId now db) ∧
    (∀ (p : Doc) (k : String) (v : Value) (freshId : String) (now : PyDateTime) (db : DB),
      ¬ k ∈ ["email"] →
        submit_partnership_inquiry (p ++ [(k, v)]) freshId now db =
          submit_partnership_inquiry p freshId now db) ∧
    (∀ (input : StatusCheckCreate) (freshId : String) (now : PyDateTime) (db : DB),
      (setKey (StatusCheck.model_dump
          (create_status_check input freshId now db).1) "timestamp"
          (Value.str (isoformat now))).map Prod.fst =
        ["id", "client_name", "timestamp"]) ∧
    (∀ (input : InvestorRequestCreate) (freshId : String) (now : PyDateTime) (db : DB),
      (setKey (InvestorRequest.model_dump
          (create_investor_request input freshId now db).1) "created_at"
          (Value.str (isoformat now))).map Prod.fst =
        ["id", "full_name", "email", "company", "title", "phone", "message",
         "created_at"]) ∧
    (∀ (input : PartnershipInquiryCreate) (freshId : String) (now : PyDateTime) (db : DB),
      (setKey (PartnershipInquiry.model_dump
          (create_partnership_inquiry input freshId now db).1) "created_at"
          (Value.str (isoformat now))).map Prod.fst =
        ["id", "email", "subject", "forward_to", "created_at"]) := by
  refine ⟨?_, ?_, ?_, ?_, ?_, ?_⟩
  · intro p k v freshId now db hk
    simp only [List.mem_singleton] at hk
    rw [submit_status_check, submit_status_check, parseStatusCheckCreate,
        parseStatusCheckCreate, getStr_append p k _ v (Ne.symm hk)]
  · intro p k v freshId now db hk
    simp only [List.mem_cons, List.mem_singleton] at hk
    push_neg at hk
    obtain ⟨h1, h2, h3, h4, h5, h6, -⟩ := hk
    rw [submit_investor_request, submit_investor_request, parseInvestorRequestCreate,
        parseInvestorRequestCreate, getStr_append p k _ v (Ne.symm h1),
        getEmail_append p k _ v (Ne.symm h2), getStr_append p k _ v (Ne.symm h3),
        getStr_append p k _ v (Ne.symm h4), getOptStr_append p k _ v (Ne.symm h5),
        getOptStr_append p k _ v (Ne.symm h6)]
  · intro p k v freshId now db hk
    simp only [List.mem_singleton] at hk
    rw [submit_partnership_inquiry, submit_partnership_inquiry,
        parsePartnershipInquiryCreate, parsePartnershipInquiryCreate,
        getEmail_append p k _ v (Ne.symm hk)]
  · intro input freshId now db
    rfl
  · intro input freshId now db
    rfl
  · intro input freshId now db
    rfl

theorem claim_C5_witness :
    (submit_status_check
        ([("client_name", Value.str "acme")] ++ [("admin", Value.bool true)])
        "id-5" demoT emptyDB =
      submit_status_check [("client_name", Value.str "acme")] "id-5" demoT emptyDB) ∧
    (setKey (StatusCheck.model_dump
        (create_status_check ⟨"acme"⟩ "id-5" demoT emptyDB).1) "timestamp"
        (Value.str (isoformat demoT))).map Prod.fst =
      ["id", "client_name", "timestamp"] :=
  ⟨claim_C5.1 [("client_name", Value.str "acme")] "admin" (Value.bool true)
      "id-5" demoT emptyDB (by decide),
   claim_C5.2.2.2.1 ⟨"acme"⟩ "id-5" demoT emptyDB⟩

/-- C6: the returned record's id is exactly the freshly generated identifier —
the payload, even one smuggling an `id` field, never supplies it — so it is
non-empty whenever the generator's output is, and two submissions of the same
payload with distinct generated identifiers return distinct ids. -/
theorem claim_C6 :
    (∀ (payload : Doc) (freshId : String) (now : PyDateTime) (db : DB)
        (r : StatusCheck) (db2 : DB),
      submit_status_check payload freshId now db = (Except.ok r, db2) →
        r.id = freshId ∧ (freshId ≠ "" → r.id ≠ "")) ∧
    (∀ (payload : Doc) (freshId : String) (now : PyDateTime) (db : DB)
        (r : InvestorRequest) (db2 : DB),
      submit_investor_request payload freshId now db = (Except.ok r, db2) →
        r.id = freshId ∧ (freshId ≠ "" → r.id ≠ "")) ∧
    (∀ (payload : Doc) (freshId : String) (now : PyDateTime) (db : DB)
        (r : PartnershipInquiry) (db2 : DB),
      submit_partnership_inquiry payload freshId now db = (Except.ok r, db2) →
        r.id = freshId ∧ (freshId ≠ "" → r.id ≠ "")) ∧
    (∀ (payload : Doc) (f1 f2 : String) (n1 n2 : PyDateTime) (da db : DB)
        (r1 r2 : StatusCheck) (da2 db2 : DB),
      submit_status_check payload f1 n1 da = (Except.ok r1, da2) →
      submit_status_check payload f2 n2 db = (Except.ok r2, db2) →
      f1 ≠ f2 → r1.id ≠ r2.id) ∧
    (∀ (payload : Doc) (f1 f2 : String) (n1 n2 : PyDateTime) (da db : DB)
        (r1 r2 : InvestorRequest) (da2 db2 : DB),
      submit_investor_request payload f1 n1 da = (Except.ok r1, da2) →
      submit_investor_request payload f2 n2 db = (Except.ok r2, db2) →
      f1 ≠ f2 → r1.id ≠ r2.id) ∧
    (∀ (payload : Doc) (f1 f2 : String) (n1 n2 : PyDateTime) (da db : DB)
        (r1 r2 : PartnershipInquiry) (da2 db2 : DB),
      submit_partnership_inquiry payload f1 n1 da = (Except.ok r1, da2) →
      submit_partnership_inquiry payload f2 n2 db = (Except.ok r2, db2) →
      f1 ≠ f2 → r1.id ≠ r2.id) := by
  have hs : ∀ (payload : Doc) (freshId : String) (now : PyDateTime) (db : DB)
      (r : StatusCheck) (db2 : DB),
      submit_status_check payload freshId now db = (Except.ok r, db2) → r.id = freshId := by
    intro payload freshId now db r db2 h
    obtain ⟨-, hr, -⟩ := submit_status_check_shape payload freshId now db r db2 h
    rw [hr]
  have hi : ∀ (payload : Doc) (freshId : String) (now : PyDateTime) (db : DB)
      (r : InvestorRequest) (db2 : DB),
      submit_investor_request payload freshId now db = (Except.ok r, db2) → r.id = freshId := by
    intro payload freshId now db r db2 h
    obtain ⟨-, hr, -⟩ := submit_investor_request_shape payload freshId now db r db2 h
    rw [hr]
  have hq : ∀ (payload : Doc) (freshId : String) (now : PyDateTime) (db : DB)
      (r : PartnershipInquiry) (db2 : DB),
      submit_partnership_inquiry payload freshId now db = (Except.ok r, db2) → r.id = freshId := by
    intro payload freshId now db r db2 h
    obtain ⟨-, hr, -⟩ := submit_partnership_inquiry_shape payload freshId now db r db2 h
    rw [hr]
  refine ⟨?_, ?_, ?_, ?_, ?_, ?_⟩
  · intro payload freshId now db r db2 h
    have := hs payload freshId now db r db2 h
    exact ⟨this, fun hne => this ▸ hne⟩
  · intro payload freshId now db r db2 h
    have := hi payload freshId now db r db2 h
    exact ⟨this, fun hne => this ▸ hne⟩
  · intro payload freshId now db r db2 h
    have := hq payload freshId now db r db2 h
    exact ⟨this, fun hne => this ▸ hne⟩
  · intro payload f1 f2 n1 n2 da db r1 r2 da2 db2 h1 h2 hne
    rw [hs payload f1 n1 da r1 da2 h1, hs payload f2 n2 db r2 db2 h2]
    exact hne
  · intro payload f1 f2 n1 n2 da db r1 r2 da2 db2 h1 h2 hne
    rw [hi payload f1 n1 da r1 da2 h1, hi payload f2 n2 db r2 db2 h2]
    exact hne
  · intro payload f1 f2 n1 n2 da db r1 r2 da2 db2 h1 h2 hne
    rw [hq payload f1 n1 da r1 da2 h1, hq payload f2 n2 db r2 db2 h2]
    exact hne

/-- Concrete status-check payload used by the witnesses. -/
def demoStatusPayload : Doc := [("client_name", Value.str "acme")]

theorem claim_C6_witness :
    (⟨"uuid-a", "acme", demoT⟩ : StatusCheck).id = "uuid-a" ∧
    ("uuid-a" ≠ "" → (⟨"uuid-a", "acme", demoT⟩ : StatusCheck).id ≠ "") ∧
    (⟨"uuid-a", "acme", demoT⟩ : StatusCheck).id ≠ (⟨"uuid-b", "acme", demoT⟩ : StatusCheck).id := by
  have h1 := claim_C6.1 demoStatusPayload "uuid-a" demoT emptyDB
    ⟨"uuid-a", "acme", demoT⟩ (submit_status_check demoStatusPayload "uuid-a" demoT emptyDB).2
    (by rfl)
  have h2 := claim_C6.2.2.2.1 demoStatusPayload "uuid-a" "uuid-b" demoT demoT
    emptyDB emptyDB ⟨"uuid-a", "acme", demoT⟩ ⟨"uuid-b", "acme", demoT⟩
    (submit_status_check demoStatusPayload "uuid-a" demoT emptyDB).2
    (submit_status_check demoStatusPayload "uuid-b" demoT emptyDB).2
    (by rfl) (by rfl) (by decide)
  exact ⟨h1.1, h1.2, h2⟩

/-- C8: every operation is append-only or read-only. Each submit leaves the
two other collections untouched and either leaves its own collection exactly
as it was (validation failure) or appends exactly one document; in both cases
the old collection survives as the unchanged prefix, so every document ever
stored keeps all its fields in every later state. The list and root
operations are functions of the state that return no new state at all. -/
theorem claim_C8 :
    ∀ (payload : Doc) (freshId : String) (now : PyDateTime) (db : DB),
      ((submit_status_check payload freshId now db).2.investor_requests =
          db.investor_requests ∧
        (submit_status_check payload freshId now db).2.partnership_inquiries =
          db.partnership_inquiries ∧
        ((submit_status_check payload freshId now db).2.status_checks =
            db.status_checks ∨
          ∃ d, (submit_status_check payload freshId now db).2.status_checks =
            db.status_checks ++ [d]) ∧
        (submit_status_check payload freshId now db).2.status_checks.take
          db.status_checks.length = db.status_checks) ∧
      ((submit_investor_request payload freshId now db).2.status_checks =
          db.status_checks ∧
        (submit_investor_request payload freshId now db).2.partnership_inquiries =
          db.partnership_inquiries ∧
        ((submit_investor_request payload freshId now db).2.investor_requests =
            db.investor_requests ∨
          ∃ d, (submit_investor_request payload freshId now db).2.investor_requests =
            db.investor_requests ++ [d]) ∧
        (submit_investor_request payload freshId now db).2.investor_requests.take
          db.investor_requests.length = db.investor_requests) ∧
      ((submit_partnership_inquiry payload freshId now db).2.status_checks =
          db.status_checks ∧
        (submit_partnership_inquiry payload freshId now db).2.investor_requests =
          db.investor_requests ∧
        ((submit_partnership_inquiry payload freshId now db).2.partnership_inquiries =
            db.partnership_inquiries ∨
          ∃ d, (submit_partnership_inquiry payload freshId now db).2.partnership_inquiries =
            db.partnership_inquiries ++ [d]) ∧
        (submit_partnership_inquiry payload freshId now db).2.partnership_inquiries.take
          db.partnership_inquiries.length = db.partnership_inquiries) := by
  intro payload freshId now db
  refine ⟨?_, ?_, ?_⟩
  · cases hp : parseStatusCheckCreate payload with
    | error e =>
      simp [submit_status_check, hp]
    | ok input =>
      simp [submit_status_check, hp, create_status_check_eq, List.take_left' rfl]
  · cases hp : parseInvestorRequestCreate payload with
    | error e =>
      simp [submit_investor_request, hp]
    | ok input =>
      simp [submit_investor_request, hp, create_investor_request_eq, List.take_left' rfl]
  · cases hp : parsePartnershipInquiryCreate payload with
    | error e =>
      simp [submit_partnership_inquiry, hp]
    | ok input =>
      simp [submit_partnership_inquiry, hp, create_partnership_inquiry_eq, List.take_left' rfl]

/-- C9: for each kind, the document written to the store is the returned
record's dump with the creation-timestamp key rebound to the ISO-8601 string
of the returned structured value; every other key of the stored document
carries the record's own field value unchanged. -/
theorem claim_C9 :
    (∀ (input : StatusCheckCreate) (freshId : String) (now : PyDateTime) (db : DB),
      (create_status_check input freshId now db).2.status_checks =
        db.status_checks ++
          [setKey (StatusCheck.model_dump (create_status_check input freshId now db).1)
            "timestamp"
            (Value.str (isoformat (create_status_check input freshId now db).1.timestamp))] ∧
      lookupKey
        (setKey (StatusCheck.model_dump (create_status_check input freshId now db).1)
          "timestamp"
          (Value.str (isoformat (create_status_check input freshId now db).1.timestamp)))
        "timestamp" =
        some (Value.str (isoformat (create_status_check input freshId now db).1.timestamp)) ∧
      ∀ k, k ≠ "timestamp" →
        lookupKey
          (setKey (StatusCheck.model_dump (create_status_check input freshId now db).1)
            "timestamp"
            (Value.str (isoformat (create_status_check input freshId now db).1.timestamp)))
          k =
        lookupKey (StatusCheck.model_dump (create_status_check input freshId now db).1) k) ∧
    (∀ (input : InvestorRequestCreate) (freshId : String) (now : PyDateTime) (db : DB),
      (create_investor_request input freshId now db).2.investor_requests =
        db.investor_requests ++
          [setKey (InvestorRequest.model_dump (create_investor_request input freshId now db).1)
            "created_at"
            (Value.str (isoformat (create_investor_request input freshId now db).1.created_at))] ∧
      lookupKey
        (setKey (InvestorRequest.model_dump (create_investor_request input freshId now db).1)
          "created_at"
          (Value.str (isoformat (create_investor_request input freshId now db).1.created_at)))
        "created_at" =
        some (Value.str (isoformat (create_investor_request input freshId now db).1.created_at)) ∧
      ∀ k, k ≠ "created_at" →
        lookupKey
          (setKey (InvestorRequest.model_dump (create_investor_request input freshId now db).1)
            "created_at"
            (Value.str (isoformat (create_investor_request input freshId now db).1.created_at)))
          k =
        lookupKey (InvestorRequest.model_dump (create_investor_request input freshId now db).1) k) ∧
    (∀ (input : PartnershipInquiryCreate) (freshId : String) (now : PyDateTime) (db : DB),
      (create_partnership_inquiry input freshId now db).2.partnership_inquiries =
        db.partnership_inquiries ++
          [setKey (PartnershipInquiry.model_dump (create_partnership_inquiry input freshId now db).1)
            "created_at"
            (Value.str (isoformat (create_partnership_inquiry input freshId now db).1.created_at))] ∧
      lookupKey
        (setKey (PartnershipInquiry.model_dump (create_partnership_inquiry input freshId now db).1)
          "created_at"
          (Value.str (isoformat (create_partnership_inquiry input freshId now db).1.created_at)))
        "created_at" =
        some (Value.str (isoformat (create_partnership_inquiry input freshId now db).1.created_at)) ∧
      ∀ k, k ≠ "created_at" →
        lookupKey
          (setKey (PartnershipInquiry.model_dump (create_partnership_inquiry input freshId now db).1)
            "created_at"
            (Value.str (isoformat (create_partnership_inquiry input freshId now db).1.created_at)))
          k =
        lookupKey (PartnershipInquiry.model_dump (create_partnership_inquiry input freshId now db).1) k) := by
  refine ⟨?_, ?_, ?_⟩
  · intro input freshId now db
    exact ⟨rfl, lookupKey_setKey_same _ _ _,
      fun k hk => lookupKey_setKey_other _ _ _ _ hk⟩
  · intro input freshId now db
    exact ⟨rfl, lookupKey_setKey_same _ _ _,
      fun k hk => lookupKey_setKey_other _ _ _ _ hk⟩
  · intro input freshId now db
    exact ⟨rfl, lookupKey_setKey_same _ _ _,
      fun k hk => lookupKey_setKey_other _ _ _ _ hk⟩

theorem claim_C9_witness :
    lookupKey
      (setKey (StatusCheck.model_dump (create_status_check ⟨"acme"⟩ "id-9" demoT emptyDB).1)
        "timestamp"
        (Value.str (isoformat (create_status_check ⟨"acme"⟩ "id-9" demoT emptyDB).1.timestamp)))
      "id" =
    lookupKey (StatusCheck.model_dump (create_status_check ⟨"acme"⟩ "id-9" demoT emptyDB).1) "id" :=
  (claim_C9.1 ⟨"acme"⟩ "id-9" demoT emptyDB).2.2 "id" (by decide)

/-- C7: listing can only fail operationally, never because of what a reachable
store contains: the empty collections list to the empty sequence, and on every
database reachable through the submit operations both list handlers return a
sequence rather than an error. (Storage failures are outside the pure model:
the store here always completes reads.) -/
theorem claim_C7 :
    get_status_checks emptyDB = Except.ok [] ∧
    get_investor_requests emptyDB = Except.ok [] ∧
    ∀ db, Reachable db →
      (∃ l, get_status_checks db = Except.ok l) ∧
      (∃ l, get_investor_requests db = Except.ok l) := by
  refine ⟨rfl, rfl, ?_⟩
  intro db h
  obtain ⟨h1, h2, -⟩ := reachable_good db h
  exact ⟨get_status_checks_ok_of_good db h1, get_investor_requests_ok_of_good db h2⟩

theorem claim_C7_witness :
    (∃ l, get_status_checks emptyDB = Except.ok l) ∧
    (∃ l, get_investor_requests emptyDB = Except.ok l) :=
  claim_C7.2.2 emptyDB Reachable.init

/-- Document without timestamp keys, exercising the strict lookup. -/
def demoBadDoc : Doc := [("x", Value.str "1")]

/-- Database holding only `demoBadDoc` in the status-check collection. -/
def demoBadDB : DB := ⟨[demoBadDoc], [], []⟩

/-- C10: the StatusCheck list loop indexes `timestamp` unconditionally, so a
retrieved document lacking the key makes the operation fail instead of being
returned; the InvestorRequest loop uses a guarded `get`, so a document lacking
`created_at` is returned unchanged; and on any database reachable through the
submit operations the StatusCheck error branch is unreachable. -/
theorem claim_C10 :
    (∀ d : Doc, lookupKey d "timestamp" = Option.none →
      convertTimestampStrict d = Except.error "KeyError: timestamp") ∧
    (∀ db : DB, (∃ d ∈ (db.status_checks.map projNoId).take 1000,
        lookupKey d "timestamp" = Option.none) →
      ∃ e, get_status_checks db = Except.error e) ∧
    (∀ d : Doc, lookupKey d "created_at" = Option.none →
      convertCreatedAtLenient d = Except.ok d) ∧
    (∀ db : DB, Reachable db → ∃ l, get_status_checks db = Except.ok l) := by
  refine ⟨?_, ?_, ?_, ?_⟩
  · intro d hd
    simp [convertTimestampStrict, hd]
  · intro db hex
    obtain ⟨d, hdmem, hd⟩ := hex
    exact mapExcept_error_of_mem _ _ d hdmem "KeyError: timestamp"
      (by simp [convertTimestampStrict, hd])
  · intro d hd
    simp [convertCreatedAtLenient, hd]
  · intro db h
    exact get_status_checks_ok_of_good db (reachable_good db h).1

theorem claim_C10_witness :
    convertTimestampStrict demoBadDoc = Except.error "KeyError: timestamp" ∧
    (∃ e, get_status_checks demoBadDB = Except.error e) ∧
    convertCreatedAtLenient demoBadDoc = Except.ok demoBadDoc ∧
    (∃ l, get_status_checks emptyDB = Except.ok l) :=
  ⟨claim_C10.1 demoBadDoc (by rfl),
   claim_C10.2.1 demoBadDB ⟨projNoId demoBadDoc, by decide, by rfl⟩,
   claim_C10.2.2.1 demoBadDoc (by rfl),
   claim_C10.2.2.2 emptyDB Reachable.init⟩

/-- C4: each list operation returns at most 1000 records — exactly
`min 1000 n` of an `n`-document collection — and the i-th returned record is
the rehydration of the i-th stored document under the `_id` projection, in
the store's retrieval order: no reordering or sorting happens. -/
theorem claim_C4 :
    (∀ (db : DB) (l : List Doc), get_status_checks db = Except.ok l →
      l.length ≤ 1000 ∧ l.length = min 1000 db.status_checks.length ∧
      ∀ (i : Nat) (h1 : i < ((db.status_checks.map projNoId).take 1000).length)
        (h2 : i < l.length),
        convertTimestampStrict (((db.status_checks.map projNoId).take 1000).get ⟨i, h1⟩) =
          Except.ok (l.get ⟨i, h2⟩)) ∧
    (∀ (db : DB) (l : List Doc), get_investor_requests db = Except.ok l →
      l.length ≤ 1000 ∧ l.length = min 1000 db.investor_requests.length ∧
      ∀ (i : Nat) (h1 : i < ((db.investor_requests.map projNoId).take 1000).length)
        (h2 : i < l.length),
        convertCreatedAtLenient (((db.investor_requests.map projNoId).take 1000).get ⟨i, h1⟩) =
          Except.ok (l.get ⟨i, h2⟩)) := by
  constructor
  · intro db l h
    have hlen := mapExcept_length _ _ _ h
    rw [List.length_take, List.length_map] at hlen
    exact ⟨by rw [hlen]; exact Nat.min_le_left _ _, hlen,
           fun i h1 h2 => mapExcept_get _ _ _ h i h1 h2⟩
  · intro db l h
    have hlen := mapExcept_length _ _ _ h
    rw [List.length_take, List.length_map] at hlen
    exact ⟨by rw [hlen]; exact Nat.min_le_left _ _, hlen,
           fun i h1 h2 => mapExcept_get _ _ _ h i h1 h2⟩

/-- A stored status-check document whose timestamp is already structured. -/
def capDoc : Doc := [("client_name", Value.str "cap"), ("timestamp", Value.dt demoT)]

/-- A status-check collection holding 1500 documents, for cap enforcement. -/
def capDB : DB := ⟨List.replicate 1500 capDoc, [], []⟩

theorem mapExcept_self_replicate (f : Doc → Except String Doc) (d : Doc)
    (h : f d = Except.ok d) (n : Nat) :
    mapExcept f (List.replicate n d) = Except.ok (List.replicate n d) := by
  induction n with
  | zero => rfl
  | succ n ih => rw [List.replicate_succ, mapExcept, h, ih]

set_option maxRecDepth 4000 in
theorem get_status_checks_capDB :
    get_status_checks capDB = Except.ok (List.replicate 1000 capDoc) := by
  show mapExcept convertTimestampStrict
    (((List.replicate 1500 capDoc).map projNoId).take 1000) = _
  rw [List.map_replicate, show projNoId capDoc = capDoc from rfl, List.take_replicate]
  norm_num
  exact mapExcept_self_replicate _ _ rfl 1000

theorem claim_C4_witness :
    (List.replicate 1000 capDoc).length ≤ 1000 ∧
    (List.replicate 1000 capDoc).length = min 1000 capDB.status_checks.length := by
  have h := claim_C4.1 capDB (List.replicate 1000 capDoc) get_status_checks_capDB
  exact ⟨h.1, h.2.1⟩

/-- C3: a valid status-check submission stores its creation timestamp as the
ISO-8601 string, and listing the collection afterwards hands back, at the new
document's position, a structured date-time equal to the one returned at
creation — the serialize-then-parse round trip is exact, hence lossless to
second precision. (Field bounds are those of every real `datetime.now`
value.) -/
theorem claim_C3 (input : StatusCheckCreate) (freshId : String) (t : PyDateTime)
    (db : DB)
    (hy : t.year < 10 ^ 4) (hmo : t.month < 10 ^ 2) (hd : t.day < 10 ^ 2)
    (hh : t.hour < 10 ^ 2) (hmi : t.minute < 10 ^ 2) (hs : t.second < 10 ^ 2)
    (hus : t.microsecond < 10 ^ 6)
    (hcap : db.status_checks.length < 1000) (hreach : Reachable db) :
    (create_status_check input freshId t db).1.timestamp = t ∧
    (∃ d, (create_status_check input freshId t db).2.status_checks =
        db.status_checks ++ [d] ∧
      lookupKey d "timestamp" = some (Value.str (isoformat t))) ∧
    ∃ l, get_status_checks (create_status_check input freshId t db).2 = Except.ok l ∧
      ∃ hidx : db.status_checks.length < l.length,
        lookupKey (l.get ⟨db.status_checks.length, hidx⟩) "timestamp" =
          some (Value.dt t) := by
  obtain ⟨h1, -, -⟩ := reachable_good db hreach
  refine ⟨rfl, ⟨setKey (StatusCheck.model_dump ⟨freshId, input.client_name, t⟩)
    "timestamp" (Value.str (isoformat t)), rfl, lookupKey_setKey_same _ _ _⟩, ?_⟩
  have hgood : ∀ d ∈ (create_status_check input freshId t db).2.status_checks,
      docTimestampOk "timestamp" d := by
    rw [create_status_check_eq]
    exact good_append _ _ _ h1 ⟨t, lookupKey_setKey_same _ _ _⟩
  obtain ⟨l, hl⟩ := get_status_checks_ok_of_good _ hgood
  have hlen := mapExcept_length _ _ _ hl
  rw [List.length_take, List.length_map, create_status_check_eq] at hlen
  simp only [List.length_append, List.length_singleton] at hlen
  have hidx : db.status_checks.length < l.length := by omega
  refine ⟨l, hl, hidx, ?_⟩
  have h1' : db.status_checks.length <
      (((create_status_check input freshId t db).2.status_checks.map projNoId).take
        1000).length := by
    rw [List.length_take, List.length_map, create_status_check_eq]
    simp only [List.length_append, List.length_singleton]
    omega
  have hget := mapExcept_get _ _ _ hl db.status_checks.length h1' hidx
  have helem : (((create_status_check input freshId t db).2.status_checks.map
        projNoId).take 1000).get ⟨db.status_checks.length, h1'⟩ =
      projNoId (setKey (StatusCheck.model_dump ⟨freshId, input.client_name, t⟩)
        "timestamp" (Value.str (isoformat t))) := by
    simp [create_status_check_eq, List.getElem_take, List.getElem_map,
      List.getElem_append_right]
  rw [helem] at hget
  have hlk : lookupKey (projNoId (setKey
      (StatusCheck.model_dump ⟨freshId, input.client_name, t⟩)
      "timestamp" (Value.str (isoformat t)))) "timestamp" =
      some (Value.str (isoformat t)) := by
    rw [lookupKey_projNoId _ "timestamp" (by decide), lookupKey_setKey_same]
  have hconv : convertTimestampStrict
      (projNoId (setKey (StatusCheck.model_dump ⟨freshId, input.client_name, t⟩)
        "timestamp" (Value.str (isoformat t)))) =
      Except.ok (setKey (projNoId (setKey
        (StatusCheck.model_dump ⟨freshId, input.client_name, t⟩)
        "timestamp" (Value.str (isoformat t)))) "timestamp" (Value.dt t)) := by
    simp [convertTimestampStrict, hlk,
      fromisoformat_isoformat t hy hmo hd hh hmi hs hus]
  rw [hconv, Except.ok.injEq] at hget
  rw [← hget, lookupKey_setKey_same]

theorem claim_C3_witness :
    (create_status_check ⟨"acme"⟩ "id-0" demoT emptyDB).1.timestamp = demoT ∧
    (∃ d, (create_status_check ⟨"acme"⟩ "id-0" demoT emptyDB).2.status_checks =
        emptyDB.status_checks ++ [d] ∧
      lookupKey d "timestamp" = some (Value.str (isoformat demoT))) ∧
    ∃ l, get_status_checks (create_status_check ⟨"acme"⟩ "id-0" demoT emptyDB).2 =
        Except.ok l ∧
      ∃ hidx : emptyDB.status_checks.length < l.length,
        lookupKey (l.get ⟨emptyDB.status_checks.length, hidx⟩) "timestamp" =
          some (Value.dt demoT) :=
  claim_C3 ⟨"acme"⟩ "id-0" demoT emptyDB (by decide) (by decide) (by decide)
    (by decide) (by decide) (by decide) (by decide) (by decide) Reachable.init

end Backend
